import Mathlib

/-!
Verification of the Identity & Sync Core of ZorixGlobalApp.jsx.

The embedding models the four core components of the source file:
RetryPolicy (withRetry), IdentityManager (useFirebaseSetup),
SharedConfigStore (useCmsConfig) and LeadSubmitter (submitLead).

Asynchronous operations are modelled as functions from the attempt
index to an outcome; effects (number of invocations, delays slept,
records appended to the backend) are made explicit in the return
values of the embedded functions.
-/

namespace Zorix

/-- Outcome of one attempt of a fallible asynchronous operation:
either a resolved value or a thrown error. -/
inductive Outcome (ε α : Type) where
  | ok (value : α)
  | err (error : ε)
deriving DecidableEq, Repr

/-- Observable trace of one run of withRetry: the final result
(resolved value or propagated error), the number of times the wrapped
operation was invoked, and the list of backoff delays slept, in order. -/
structure RunTrace (ε α : Type) where
  result : Outcome ε α
  calls : Nat
  delays : List Nat
deriving DecidableEq, Repr

/-- Embedding of withRetry (src/ZorixGlobalApp.jsx lines 14-22):

    const withRetry = async (fn, retries = 5, delay = 1000) => \x7b
        try \x7b return await fn(); \x7d catch (error) \x7b
            if (retries === 0) throw error;
            await new Promise(resolve => setTimeout(resolve, delay));
            return withRetry(fn, retries - 1, delay * 2);
        \x7d
    \x7d;

The operation is modelled as a function from the attempt index (0-based)
to its outcome; `idx` is the index of the current attempt. -/
def withRetry {ε α : Type} (op : Nat → Outcome ε α) : Nat → Nat → Nat → RunTrace ε α
  | 0, _, idx =>
    match op idx with
    | .ok a => ⟨.ok a, 1, []⟩
    | .err er => ⟨.err er, 1, []⟩
  | r + 1, d, idx =>
    match op idx with
    | .ok a => ⟨.ok a, 1, []⟩
    | .err _ =>
      let t := withRetry op r (d * 2) (idx + 1)
      ⟨t.result, t.calls + 1, d :: t.delays⟩

/-- The geometric delay sequence d, 2d, 4d, ... of length r. -/
def geomDelays (d r : Nat) : List Nat :=
  (List.range r).map (fun i => d * 2 ^ i)

lemma geomDelays_succ (d r : Nat) :
    d :: geomDelays (d * 2) r = geomDelays d (r + 1) := by
  unfold geomDelays
  rw [List.range_succ_eq_map, List.map_cons, List.map_map]
  have hfun : (fun i => d * 2 * 2 ^ i) = ((fun i => d * 2 ^ i) ∘ Nat.succ) := by
    funext i
    simp [Function.comp, pow_succ]
    ring
  simp [hfun]

/-- If every attempt from index `idx` on fails, withRetry with `r`
remaining retries makes r + 1 calls, sleeps the doubling delays, and
propagates the error of the last attempt unchanged. -/
lemma withRetry_all_fail {ε α : Type} (op : Nat → Outcome ε α) (e : Nat → ε)
    (h : ∀ i, op i = .err (e i)) :
    ∀ r d idx, withRetry op r d idx = ⟨.err (e (idx + r)), r + 1, geomDelays d r⟩ := by
  intro r
  induction r with
  | zero =>
    intro d idx
    simp [withRetry, h idx, geomDelays]
  | succ n ih =>
    intro d idx
    simp only [withRetry, h idx]
    rw [ih (d * 2) (idx + 1)]
    have harg : idx + 1 + n = idx + (n + 1) := by omega
    simp [harg, geomDelays_succ]

/-- If the first `j` attempts from index `idx` fail and attempt `idx + j`
succeeds with value `a`, withRetry with at least `j` retries remaining
makes exactly j + 1 calls, sleeps only the j pre-retry delays, and
resolves to `a`. -/
lemma withRetry_first_ok {ε α : Type} (op : Nat → Outcome ε α) :
    ∀ j r d idx a, j ≤ r → (∀ i, i < j → ∃ er, op (idx + i) = .err er) →
    op (idx + j) = .ok a →
    withRetry op r d idx = ⟨.ok a, j + 1, geomDelays d j⟩ := by
  intro j
  induction j with
  | zero =>
    intro r d idx a _ _ hok
    rw [Nat.add_zero] at hok
    cases r with
    | zero => simp [withRetry, hok, geomDelays]
    | succ n => simp [withRetry, hok, geomDelays]
  | succ m ih =>
    intro r d idx a hle hfail hok
    obtain ⟨er, her⟩ := hfail 0 (Nat.succ_pos m)
    rw [Nat.add_zero] at her
    cases r with
    | zero => omega
    | succ n =>
      simp only [withRetry, her]
      have hfail' : ∀ i, i < m → ∃ er2, op (idx + 1 + i) = .err er2 := by
        intro i hi
        have := hfail (i + 1) (by omega)
        have harg : idx + (i + 1) = idx + 1 + i := by omega
        rwa [harg] at this
      have hok' : op (idx + 1 + m) = .ok a := by
        have harg : idx + (m + 1) = idx + 1 + m := by omega
        rwa [harg] at hok
      rw [ih n (d * 2) (idx + 1) a (by omega) hfail' hok']
      simp [geomDelays_succ]

/-- C1: for every N ≥ 1, an operation that fails on all attempts is
invoked exactly N times by withRetry with N - 1 retries (the code calls
RetryPolicy(N, d) with `retries = N - 1`, so N total attempts), the
delays slept are d, 2d, 4d, ..., one before each retry, and the error
propagated is exactly the error thrown by the last attempt (index N - 1),
unchanged. -/
theorem retry_exhaustion_exact {ε α : Type} (op : Nat → Outcome ε α)
    (N d : Nat) (e : Nat → ε) (hN : 1 ≤ N)
    (hfail : ∀ i, op i = .err (e i)) :
    withRetry op (N - 1) d 0 = ⟨.err (e (N - 1)), N, geomDelays d (N - 1)⟩ := by
  rw [withRetry_all_fail op e hfail (N - 1) d 0]
  have h1 : (0 : Nat) + (N - 1) = N - 1 := by omega
  have h2 : N - 1 + 1 = N := by omega
  rw [h1, h2]

/-- Witness for C1 at N = 6, d = 1000 (the source defaults), with every
attempt throwing the same error "NetworkError". -/
theorem retry_exhaustion_exact_witness :
    (1 ≤ 6 ∧ (∀ i : Nat, (fun _ : Nat => (Outcome.err "NetworkError" : Outcome String Unit)) i = .err ((fun _ : Nat => "NetworkError") i))) ∧
    withRetry (fun _ : Nat => (Outcome.err "NetworkError" : Outcome String Unit)) (6 - 1) 1000 0 =
      ⟨.err "NetworkError", 6, geomDelays 1000 (6 - 1)⟩ :=
  ⟨⟨by decide, fun _ => rfl⟩,
   retry_exhaustion_exact (fun _ => Outcome.err "NetworkError") 6 1000 (fun _ => "NetworkError")
     (by decide) (fun _ => rfl)⟩

/-- C2: an operation that succeeds on attempt k ≤ N is invoked exactly
k times, the only delays are the k - 1 waits before the retries (no
delay after the successful attempt), and withRetry resolves to exactly
the value produced by the successful attempt. -/
theorem retry_stops_on_success {ε α : Type} (op : Nat → Outcome ε α)
    (N k d : Nat) (a : α) (h1 : 1 ≤ k) (hk : k ≤ N)
    (hfail : ∀ i, i < k - 1 → ∃ er, op i = .err er)
    (hok : op (k - 1) = .ok a) :
    withRetry op (N - 1) d 0 = ⟨.ok a, k, geomDelays d (k - 1)⟩ := by
  have h := withRetry_first_ok op (k - 1) (N - 1) d 0 a (by omega)
    (by intro i hi; simpa using hfail i hi) (by simpa using hok)
  rw [h]
  have h2 : k - 1 + 1 = k := by omega
  rw [h2]

/-- Witness for C2 at N = 6, k = 3: two failures then a success. -/
theorem retry_stops_on_success_witness :
    (1 ≤ 3 ∧ 3 ≤ 6 ∧
     (∀ i : Nat, i < 3 - 1 → ∃ er, (fun j : Nat => if j < 2 then (Outcome.err "E" : Outcome String Nat) else .ok 42) i = .err er) ∧
     (fun j : Nat => if j < 2 then (Outcome.err "E" : Outcome String Nat) else .ok 42) (3 - 1) = .ok 42) ∧
    withRetry (fun j : Nat => if j < 2 then (Outcome.err "E" : Outcome String Nat) else .ok 42) (6 - 1) 1000 0 =
      ⟨.ok 42, 3, geomDelays 1000 (3 - 1)⟩ :=
  ⟨⟨by decide, by decide,
    by intro i hi; exact ⟨"E", by interval_cases i <;> rfl⟩, by rfl⟩,
   retry_stops_on_success _ 6 3 1000 42 (by decide) (by decide)
     (by intro i hi; exact ⟨"E", by interval_cases i <;> rfl⟩) (by rfl)⟩

/-- JavaScript string-or: `v || fallback` where `v` may be undefined
(none) and the empty string is falsy. Embeds the expression
`authInstance.currentUser?.uid || crypto.randomUUID()`. -/
def jsOrString (v : Option String) (fallback : String) : String :=
  match v with
  | some s => if s = "" then fallback else s
  | none => fallback

/-- Environment of one run of useFirebaseSetup (src/ZorixGlobalApp.jsx
lines 26-83): the ambient configuration globals, the behaviour of the
backend during initialization and during the first auth-state
notification, and the value produced by crypto.randomUUID(). The
backend contract guarantees that the auth-state listener fires at
least once at startup; the model describes the hook state once that
first notification has been processed. -/
structure FirebaseEnv where
  firebaseConfig : Option String
  initThrows : Bool
  initialAuthToken : Option String
  callbackUser : Option String
  uidBefore : Option String
  tokenSignIn : Nat → Outcome String Unit
  anonSignIn : Nat → Outcome String Unit
  uidAfter : Option String
  freshUUID : String

/-- The sign-in operation chosen by the callback: custom-token sign-in
when an initial auth token is provided, anonymous sign-in otherwise. -/
def signInOp (env : FirebaseEnv) : Nat → Outcome String Unit :=
  match env.initialAuthToken with
  | some _ => env.tokenSignIn
  | none => env.anonSignIn

/-- Embedding of the onAuthStateChanged callback body (lines 51-72):
compute `currentUserId = authInstance.currentUser?.uid || crypto.randomUUID()`
first; if a user is present keep it; otherwise attempt sign-in wrapped
in withRetry (5 retries, 1000ms initial delay) and on success reassign
`currentUserId = authInstance.currentUser?.uid` with no fallback, while
on exhausted retries keep the earlier fallback value. Returns the value
passed to setUserId. -/
def authCallback (env : FirebaseEnv) : Option String :=
  let fallbackId := jsOrString env.uidBefore env.freshUUID
  match env.callbackUser with
  | some _ => some fallbackId
  | none =>
    match (withRetry (signInOp env) 5 1000 0).result with
    | .ok _ => env.uidAfter
    | .err _ => some fallbackId

/-- State exposed by useFirebaseSetup: whether the db and auth handles
were set, the userId, and the readiness flag. -/
structure HookState where
  hasDb : Bool
  hasAuth : Bool
  userId : Option String
  isAuthReady : Bool
deriving DecidableEq, Repr

/-- Embedding of the useFirebaseSetup mount effect (lines 32-80), at
the point where the first auth-state notification has been processed:
missing configuration sets isAuthReady with no handles and no identity;
an initialization failure likewise; otherwise the handles are set and
the first callback determines the userId. -/
def useFirebaseSetup (env : FirebaseEnv) : HookState :=
  match env.firebaseConfig with
  | none => ⟨false, false, none, true⟩
  | some _ =>
    if env.initThrows then ⟨false, false, none, true⟩
    else ⟨true, true, authCallback env, true⟩

/-- C3: useFirebaseSetup always reaches isAuthReady = true once the
first auth-state notification is processed (and immediately when no
configuration is present). With no backend configuration it reports
ready with a null identity and no handles; with configuration present
and every sign-in attempt failing, it reports ready with the non-empty
locally generated fallback identifier crypto.randomUUID(). -/
theorem auth_always_ready (env : FirebaseEnv) (e : Nat → String) :
    (useFirebaseSetup env).isAuthReady = true ∧
    (env.firebaseConfig = none → useFirebaseSetup env = ⟨false, false, none, true⟩) ∧
    (∀ c, env.firebaseConfig = some c → env.initThrows = false →
      env.callbackUser = none → env.uidBefore = none → env.freshUUID ≠ "" →
      (∀ i, signInOp env i = .err (e i)) →
      useFirebaseSetup env = ⟨true, true, some env.freshUUID, true⟩ ∧
        env.freshUUID ≠ "") := by
  refine ⟨?_, ?_, ?_⟩
  · unfold useFirebaseSetup
    cases henv : env.firebaseConfig with
    | none => rfl
    | some c => by_cases h : env.initThrows <;> simp [h]
  · intro h
    simp [useFirebaseSetup, h]
  · intro c hc hinit hcb huid huuid hfail
    refine ⟨?_, huuid⟩
    have hres := withRetry_all_fail (signInOp env) e hfail 5 1000 0
    simp [useFirebaseSetup, hc, hinit, authCallback, hcb, hres, jsOrString, huid]

/-- Witness for C3: a concrete environment with configuration present,
no signed-in user, anonymous sign-in failing on every attempt, and a
fresh UUID; readiness is reached with the fallback identifier. -/
theorem auth_always_ready_witness :
    useFirebaseSetup
        ⟨some "cfg", false, none, none, none,
         (fun _ => Outcome.err "AuthError"), (fun _ => Outcome.err "AuthError"),
         none, "3e9c1a2b-0f4d-4a6e-9b7c-d8e5f6a1b2c3"⟩ =
      ⟨true, true, some "3e9c1a2b-0f4d-4a6e-9b7c-d8e5f6a1b2c3", true⟩ ∧
    ("3e9c1a2b-0f4d-4a6e-9b7c-d8e5f6a1b2c3" : String) ≠ "" :=
  (auth_always_ready
    ⟨some "cfg", false, none, none, none,
     (fun _ => Outcome.err "AuthError"), (fun _ => Outcome.err "AuthError"),
     none, "3e9c1a2b-0f4d-4a6e-9b7c-d8e5f6a1b2c3"⟩
    (fun _ => "AuthError")).2.2 "cfg" rfl rfl rfl rfl (by decide) (fun _ => rfl)

/-- C10: in the auth callback the random-UUID fallback is computed
before any sign-in attempt and retained only when sign-in is skipped or
fails; after a successful sign-in the userId is reassigned to exactly
authInstance.currentUser?.uid with no fallback, so a backend that
resolves sign-in without exposing a current uid leaves the userId
absent even though isAuthReady becomes true. -/
theorem signin_success_drops_fallback (env : FirebaseEnv)
    (hcb : env.callbackUser = none) :
    ((withRetry (signInOp env) 5 1000 0).result = .ok () →
      authCallback env = env.uidAfter) ∧
    (∀ er, (withRetry (signInOp env) 5 1000 0).result = .err er →
      authCallback env = some (jsOrString env.uidBefore env.freshUUID)) ∧
    ((withRetry (signInOp env) 5 1000 0).result = .ok () → env.uidAfter = none →
      ∀ c, env.firebaseConfig = some c → env.initThrows = false →
      useFirebaseSetup env = ⟨true, true, none, true⟩) := by
  refine ⟨?_, ?_, ?_⟩
  · intro hok
    simp [authCallback, hcb, hok]
  · intro er herr
    simp [authCallback, hcb, herr]
  · intro hok huid c hc hinit
    simp [useFirebaseSetup, hc, hinit, authCallback, hcb, hok, huid]

/-- Witness for C10: anonymous sign-in succeeds on the first attempt
but the backend exposes no current uid, so the hook becomes ready with
an absent userId. -/
theorem signin_success_drops_fallback_witness :
    useFirebaseSetup
        ⟨some "cfg", false, none, none, none,
         (fun _ => Outcome.err "unused"), (fun _ => Outcome.ok ()),
         none, "11111111-2222-3333-4444-555555555555"⟩ =
      ⟨true, true, none, true⟩ :=
  (signin_success_drops_fallback
    ⟨some "cfg", false, none, none, none,
     (fun _ => Outcome.err "unused"), (fun _ => Outcome.ok ()),
     none, "11111111-2222-3333-4444-555555555555"⟩
    rfl).2.2 rfl rfl "cfg" rfl rfl

/-- The compiled-in default CMS mapping (line 96 of the source):
years "5+", countries "15+", projects "500+", customers "300+". -/
def defaultData : List (String × String) :=
  [("years", "5+"), ("countries", "15+"), ("projects", "500+"), ("customers", "300+")]

/-- One delivery of the config subscription: an update carrying the
document data when it exists (`update (some m)`), an update stating the
document does not exist (`update none`), or a subscription error. -/
inductive CmsEvent where
  | update (data : Option (List (String × String)))
  | subError (msg : String)
deriving DecidableEq, Repr

/-- Embedding of the onSnapshot handlers (lines 116-126): an existing
document replaces the view verbatim with its data; a non-existing
document and a subscription error both reset the view to the defaults. -/
def applyCmsEvent (_view : List (String × String)) : CmsEvent → List (String × String)
  | .update (some m) => m
  | .update none => defaultData
  | .subError _ => defaultData

/-- The in-memory config view after a sequence of subscription
deliveries, starting from the default mapping (useState initial). -/
def cmsView (events : List CmsEvent) : List (String × String) :=
  events.foldl applyCmsEvent defaultData

/-- A remote operation issued by useCmsConfig: one attempt of the
best-effort seed merge-write, or opening the live subscription. -/
inductive RemoteOp where
  | seedWrite (data : List (String × String)) (merge : Bool)
  | subscribe
deriving DecidableEq, Repr

/-- Embedding of the useCmsConfig effect (lines 99-129): the guard
returns with no remote operations while the db handle is absent or
isAuthReady is false, leaving the default view; otherwise it issues the
withRetry-wrapped seed write (one seedWrite per attempt), opens the
subscription, and the view follows the delivered events. -/
def useCmsConfigEffect (db : Option Unit) (isAuthReady : Bool)
    (seedResults : Nat → Outcome String Unit) (events : List CmsEvent) :
    List RemoteOp × List (String × String) :=
  match db, isAuthReady with
  | some _, true =>
    let t := withRetry seedResults 5 1000 0
    (List.replicate t.calls (RemoteOp.seedWrite defaultData true) ++ [RemoteOp.subscribe],
     cmsView events)
  | _, _ => ([], defaultData)

/-- The mapping of the last delivered existing snapshot, when the most
recent delivery is an existing snapshot; none when no event arrived or
the most recent delivery was a not-exists update or an error (both of
which reset the view to the defaults). -/
def lastCmsData (events : List CmsEvent) : Option (List (String × String)) :=
  match events.getLast? with
  | some (CmsEvent.update (some m)) => some m
  | _ => none

/-- Counterexample to C4 as stated: a subscription delivery in which
the document exists but carries an empty mapping makes the in-memory
view empty, because line 118 installs docSnap.data() verbatim. -/
theorem cms_view_can_be_empty :
    cmsView [CmsEvent.update (some [])] = [] ∧ defaultData ≠ [] := by
  constructor
  · rfl
  · decide

/-- C4 (amended): at every observable point the in-memory view equals
the mapping of the last delivered existing snapshot when the most
recent delivery is an existing snapshot, and the compiled-in default
mapping otherwise (after a not-exists delivery, a subscription error,
or before any delivery); that last mapping is one the backend actually
delivered; and the view is non-empty provided every delivered existing
snapshot carries a non-empty mapping (the defaults are non-empty; an
existing snapshot with an empty mapping is installed verbatim and is
the only way the view becomes empty). -/
theorem cms_view_last_or_default (events : List CmsEvent) :
    cmsView events = (lastCmsData events).getD defaultData ∧
    (∀ m, lastCmsData events = some m → CmsEvent.update (some m) ∈ events) ∧
    ((∀ m, CmsEvent.update (some m) ∈ events → m ≠ []) → cmsView events ≠ []) := by
  induction events using List.reverseRecOn with
  | nil =>
    refine ⟨rfl, ?_, ?_⟩
    · intro m hm
      simp [lastCmsData] at hm
    · intro _
      decide
  | append_singleton es ev _ =>
    have hview : cmsView (es ++ [ev]) = applyCmsEvent (cmsView es) ev := by
      unfold cmsView
      rw [List.foldl_append]
      rfl
    cases ev with
    | update data =>
      cases data with
      | some m =>
        have hlast : lastCmsData (es ++ [CmsEvent.update (some m)]) = some m := by
          unfold lastCmsData
          rw [List.getLast?_concat]
        refine ⟨?_, ?_, ?_⟩
        · rw [hview, hlast]
          rfl
        · intro m2 hm2
          rw [hlast] at hm2
          cases hm2
          exact List.mem_append_right _ (List.mem_singleton_self _)
        · intro hne
          rw [hview]
          exact hne m (List.mem_append_right _ (List.mem_singleton_self _))
      | none =>
        have hlast : lastCmsData (es ++ [CmsEvent.update none]) = none := by
          unfold lastCmsData
          rw [List.getLast?_concat]
        refine ⟨?_, ?_, ?_⟩
        · rw [hview, hlast]
          rfl
        · intro m2 hm2
          rw [hlast] at hm2
          exact absurd hm2 (by simp)
        · intro _
          rw [hview]
          show defaultData ≠ []
          decide
    | subError msg =>
      have hlast : lastCmsData (es ++ [CmsEvent.subError msg]) = none := by
        unfold lastCmsData
        rw [List.getLast?_concat]
      refine ⟨?_, ?_, ?_⟩
      · rw [hview, hlast]
        rfl
      · intro m2 hm2
        rw [hlast] at hm2
        exact absurd hm2 (by simp)
      · intro _
        rw [hview]
        show defaultData ≠ []
        decide

/-- Witness for C4 (amended): the scenario of C5 delivers one
non-existing update and one existing non-empty snapshot; the view is
exactly that last snapshot, it was delivered, and it is non-empty. -/
theorem cms_view_last_or_default_witness :
    (cmsView [CmsEvent.update none, CmsEvent.update (some [("years", "7+")])] =
      (lastCmsData [CmsEvent.update none, CmsEvent.update (some [("years", "7+")])]).getD defaultData ∧
     (∀ m, lastCmsData [CmsEvent.update none, CmsEvent.update (some [("years", "7+")])] = some m →
        CmsEvent.update (some m) ∈
          [CmsEvent.update none, CmsEvent.update (some [("years", "7+")])])) ∧
    cmsView [CmsEvent.update none, CmsEvent.update (some [("years", "7+")])] ≠ [] :=
  have h := cms_view_last_or_default
    [CmsEvent.update none, CmsEvent.update (some [("years", "7+")])]
  ⟨⟨h.1, h.2.1⟩, h.2.2 (by
    intro m hm
    simp only [List.mem_cons, List.not_mem_nil, or_false] at hm
    rcases hm with hm | hm
    · simp at hm
    · cases hm; decide)⟩

/-- C5: a delivery stating the document does not exist followed by a
snapshot whose data is exactly the mapping years "7+" leaves the view
equal to exactly that mapping; in general an existing snapshot replaces
any current view verbatim, never merging with the defaults. -/
theorem cms_remote_replaces_verbatim :
    cmsView [CmsEvent.update none, CmsEvent.update (some [("years", "7+")])] =
      [("years", "7+")] ∧
    ∀ (view m : List (String × String)),
      applyCmsEvent view (CmsEvent.update (some m)) = m := by
  exact ⟨rfl, fun _ _ => rfl⟩

/-- C6: while the db handle is absent or isAuthReady is false,
useCmsConfig performs no remote operation (no seed write, no
subscription) and exposes the compiled-in default mapping; hence every
remote operation of the store is preceded by the readiness transition. -/
theorem cms_guard_blocks_remote (db : Option Unit) (isAuthReady : Bool)
    (seedResults : Nat → Outcome String Unit) (events : List CmsEvent)
    (h : db = none ∨ isAuthReady = false) :
    useCmsConfigEffect db isAuthReady seedResults events = ([], defaultData) := by
  rcases h with h | h
  · subst h; cases isAuthReady <;> rfl
  · subst h; cases db <;> rfl

/-- Witness for C6: absent db handle with isAuthReady true. -/
theorem cms_guard_blocks_remote_witness :
    ((none : Option Unit) = none ∨ (true : Bool) = false) ∧
    useCmsConfigEffect none true (fun _ => Outcome.ok ())
        [CmsEvent.update (some [("years", "7+")])] = ([], defaultData) :=
  ⟨Or.inl rfl,
   cms_guard_blocks_remote none true (fun _ => Outcome.ok ())
     [CmsEvent.update (some [("years", "7+")])] (Or.inl rfl)⟩

/-- Field lookup in a JavaScript object represented as an ordered list
of key-value assignments: a later assignment to the same key wins, as
in an object literal with spread. -/
def jsGet (obj : List (String × String)) (k : String) : Option String :=
  match obj with
  | [] => none
  | (k2, v) :: rest =>
    match jsGet rest k with
    | some v2 => some v2
    | none => if k2 = k then some v else none

lemma jsGet_append (a b : List (String × String)) (k : String) :
    jsGet (a ++ b) k =
      match jsGet b k with
      | some v => some v
      | none => jsGet a k := by
  induction a with
  | nil =>
    cases h : jsGet b k <;> simp [jsGet, h]
  | cons p rest ih =>
    obtain ⟨k2, v⟩ := p
    have hstep : jsGet (((k2, v) :: rest) ++ b) k =
        (match jsGet (rest ++ b) k with
         | some v2 => some v2
         | none => if k2 = k then some v else none) := rfl
    rw [hstep, ih]
    cases h : jsGet b k
    · rfl
    · rfl

/-- ASCII digit test on a character. -/
def isDigitChar (c : Char) : Bool :=
  ("0" : String).front ≤ c && c ≤ ("9" : String).front

/-- Shape check for the 24-character ISO-8601 timestamp produced by
Date.prototype.toISOString: YYYY-MM-DDTHH:MM:SS.mmmZ. -/
def isISO8601 (s : String) : Bool :=
  match s.toList with
  | [y1, y2, y3, y4, h1, o1, o2, h2, a1, a2, tc, u1, u2, c1, n1, n2, c2, s1, s2, dc, f1, f2, f3, zc] =>
    isDigitChar y1 && isDigitChar y2 && isDigitChar y3 && isDigitChar y4 &&
    h1 == ("-" : String).front && isDigitChar o1 && isDigitChar o2 &&
    h2 == ("-" : String).front && isDigitChar a1 && isDigitChar a2 &&
    tc == ("T" : String).front && isDigitChar u1 && isDigitChar u2 &&
    c1 == (":" : String).front && isDigitChar n1 && isDigitChar n2 &&
    c2 == (":" : String).front && isDigitChar s1 && isDigitChar s2 &&
    dc == ("." : String).front && isDigitChar f1 && isDigitChar f2 && isDigitChar f3 &&
    zc == ("Z" : String).front
  | _ => false

/-- The user-facing message of the synchronous not-ready guard
(line 140 of the source). -/
def notReadyMsg : String := "System not ready. Please try again later."

/-- The user-facing confirmation message on success (line 150). -/
def submitSuccessMsg : String := "Thank you! Your inquiry has been successfully submitted."

/-- The generic user-facing message on submission failure (line 153). -/
def submitFailMsg : String := "Submission failed. Please check your network connection."

/-- The identity-scoped private leads collection path (line 90):
artifacts / appId / users / userId / zorix_leads. -/
def leadsPath (appId userId : String) : List String :=
  ["artifacts", appId, "users", userId, "zorix_leads"]

/-- The record appended on submission (lines 145-149): the spread of
formData followed by the assignments of the timestamp and the initial
status "New" (later assignments win on key collision, as in JS). -/
def mkLeadRecord (formData : List (String × String)) (ts : String) :
    List (String × String) :=
  formData ++ [("timestamp", ts), ("status", "New")]

/-- Result returned by submitLead to the caller. -/
structure SubmitResult where
  success : Bool
  message : String
deriving DecidableEq, Repr

/-- Observable behaviour of one submitLead call: the returned result,
the number of addDoc attempts made, and the records actually persisted,
each with its collection path. -/
structure SubmitOutcome where
  result : SubmitResult
  attempts : Nat
  appended : List (List String × List (String × String))
deriving DecidableEq, Repr

/-- Backend and ambient environment of one submitLead call: the app
identifier, the per-attempt response of addDoc, and the ISO rendering
of the clock read at each attempt by new Date().toISOString(). -/
structure SubmitEnv where
  appId : String
  addRecordResults : Nat → Outcome String String
  nowISO : Nat → String

/-- Embedding of submitLead (src/ZorixGlobalApp.jsx lines 137-155):
the synchronous guard `if (!db || !userId)` returns a not-ready
failure with no remote call (the empty string is falsy in JS);
otherwise addDoc on the leads collection is wrapped in withRetry with
the default 5 retries, a success resolves to the success result having
appended exactly the record of the successful attempt, and an exhausted
retry is caught and surfaced as the generic failure result. -/
def submitLead (db : Option Unit) (userId : Option String)
    (formData : List (String × String)) (env : SubmitEnv) : SubmitOutcome :=
  match db, userId with
  | some _, some u =>
    if u = "" then ⟨⟨false, notReadyMsg⟩, 0, []⟩
    else
      let t := withRetry env.addRecordResults 5 1000 0
      match t.result with
      | .ok _ =>
        ⟨⟨true, submitSuccessMsg⟩, t.calls,
         [(leadsPath env.appId u, mkLeadRecord formData (env.nowISO (t.calls - 1)))]⟩
      | .err _ => ⟨⟨false, submitFailMsg⟩, t.calls, []⟩
  | _, _ => ⟨⟨false, notReadyMsg⟩, 0, []⟩

/-- C7: with an absent backend handle or an absent identity id (the
latter holds in particular while identity is not ready, since userId
is still null then), submitLead returns a failure result carrying the
non-empty not-ready message, makes zero addDoc attempts and persists
nothing. -/
theorem submit_not_ready_no_remote (db : Option Unit) (userId : Option String)
    (formData : List (String × String)) (env : SubmitEnv)
    (h : db = none ∨ userId = none) :
    submitLead db userId formData env = ⟨⟨false, notReadyMsg⟩, 0, []⟩ ∧
    notReadyMsg ≠ "" := by
  refine ⟨?_, by decide⟩
  rcases h with h | h
  · subst h; cases userId <;> rfl
  · subst h; cases db <;> rfl

/-- Witness for C7: absent db handle. -/
theorem submit_not_ready_no_remote_witness :
    submitLead none (some "user-1") [("name", "Acme")]
        ⟨"default-app-id", fun _ => Outcome.ok "id", fun _ => "2026-01-02T03:04:05.678Z"⟩ =
      ⟨⟨false, notReadyMsg⟩, 0, []⟩ ∧ notReadyMsg ≠ "" :=
  submit_not_ready_no_remote none (some "user-1") [("name", "Acme")]
    ⟨"default-app-id", fun _ => Outcome.ok "id", fun _ => "2026-01-02T03:04:05.678Z"⟩
    (Or.inl rfl)

/-- C8: when the guard passes and the backend accepts the write on the
first attempt, submitLead returns the success result and persists
exactly one record, on the identity-scoped private collection path,
whose fields are all the submitted form fields (any field named
timestamp or status being overridden, as the JS spread dictates) plus
the ISO-8601 timestamp observed at submission time and a status field
equal to "New". -/
theorem submit_success_appends_record (u : String)
    (formData : List (String × String)) (env : SubmitEnv) (rid : String)
    (hu : u ≠ "") (hok : env.addRecordResults 0 = .ok rid)
    (hiso : isISO8601 (env.nowISO 0) = true) :
    submitLead (some ()) (some u) formData env =
      ⟨⟨true, submitSuccessMsg⟩, 1,
       [(leadsPath env.appId u, mkLeadRecord formData (env.nowISO 0))]⟩ ∧
    (∀ k, k ≠ "timestamp" → k ≠ "status" →
      jsGet (mkLeadRecord formData (env.nowISO 0)) k = jsGet formData k) ∧
    jsGet (mkLeadRecord formData (env.nowISO 0)) "timestamp" = some (env.nowISO 0) ∧
    jsGet (mkLeadRecord formData (env.nowISO 0)) "status" = some "New" ∧
    isISO8601 (env.nowISO 0) = true := by
  have htrace : withRetry env.addRecordResults 5 1000 0 = ⟨.ok rid, 1, geomDelays 1000 0⟩ := by
    have := withRetry_first_ok env.addRecordResults 0 5 1000 0 rid (by omega)
      (by intro i hi; omega) (by simpa using hok)
    simpa using this
  refine ⟨?_, ?_, ?_, ?_, hiso⟩
  · simp [submitLead, hu, htrace]
  · intro k hkt hks
    unfold mkLeadRecord
    rw [jsGet_append]
    have htail : jsGet [("timestamp", env.nowISO 0), ("status", "New")] k = none := by
      simp [jsGet, Ne.symm hkt, Ne.symm hks]
    rw [htail]
  · unfold mkLeadRecord
    rw [jsGet_append]
    simp [jsGet]
  · unfold mkLeadRecord
    rw [jsGet_append]
    simp [jsGet]

/-- Witness for C8: the form data of the spec scenario, a backend that
accepts the first write, and a concrete ISO timestamp. -/
theorem submit_success_appends_record_witness :
    submitLead (some ()) (some "user-77")
        [("name", "Acme"), ("company", "Acme Co"), ("email", "a@acme.com"),
         ("phone", ""), ("inquiry", "Quote Request")]
        ⟨"default-app-id", fun _ => Outcome.ok "rec-1", fun _ => "2026-01-02T03:04:05.678Z"⟩ =
      ⟨⟨true, submitSuccessMsg⟩, 1,
       [(leadsPath "default-app-id" "user-77",
         mkLeadRecord
           [("name", "Acme"), ("company", "Acme Co"), ("email", "a@acme.com"),
            ("phone", ""), ("inquiry", "Quote Request")]
           "2026-01-02T03:04:05.678Z")]⟩ ∧
    jsGet
        (mkLeadRecord
          [("name", "Acme"), ("company", "Acme Co"), ("email", "a@acme.com"),
           ("phone", ""), ("inquiry", "Quote Request")]
          "2026-01-02T03:04:05.678Z") "name" = some "Acme" ∧
    jsGet
        (mkLeadRecord
          [("name", "Acme"), ("company", "Acme Co"), ("email", "a@acme.com"),
           ("phone", ""), ("inquiry", "Quote Request")]
          "2026-01-02T03:04:05.678Z") "timestamp" = some "2026-01-02T03:04:05.678Z" ∧
    jsGet
        (mkLeadRecord
          [("name", "Acme"), ("company", "Acme Co"), ("email", "a@acme.com"),
           ("phone", ""), ("inquiry", "Quote Request")]
          "2026-01-02T03:04:05.678Z") "status" = some "New" ∧
    isISO8601 "2026-01-02T03:04:05.678Z" = true := by
  have h := submit_success_appends_record "user-77"
    [("name", "Acme"), ("company", "Acme Co"), ("email", "a@acme.com"),
     ("phone", ""), ("inquiry", "Quote Request")]
    ⟨"default-app-id", fun _ => Outcome.ok "rec-1", fun _ => "2026-01-02T03:04:05.678Z"⟩
    "rec-1" (by decide) rfl (by decide)
  exact ⟨h.1, h.2.1 "name" (by decide) (by decide), h.2.2.1, h.2.2.2.1, h.2.2.2.2⟩

/-- C9: when the guard passes and every addDoc attempt throws,
submitLead catches the exhausted retry and returns a failure result
(never an unhandled crash) after exactly 6 attempts (1 initial + 5
retries), persisting nothing; the surfaced message is the fixed
non-empty generic string, which is distinct from the raw underlying
error whenever that error is not literally this string (in particular
distinct from "NetworkError"). -/
theorem submit_exhaustion_failure (u : String)
    (formData : List (String × String)) (env : SubmitEnv) (e : Nat → String)
    (hu : u ≠ "") (hfail : ∀ i, env.addRecordResults i = .err (e i)) :
    submitLead (some ()) (some u) formData env = ⟨⟨false, submitFailMsg⟩, 6, []⟩ ∧
    submitFailMsg ≠ "" ∧
    (∀ i, e i ≠ submitFailMsg → submitFailMsg ≠ e i) := by
  have htrace := withRetry_all_fail env.addRecordResults e hfail 5 1000 0
  refine ⟨?_, by decide, fun i hi => fun h => hi h.symm⟩
  simp [submitLead, hu, htrace]

/-- Witness for C9: a backend whose addRecord always throws
NetworkError; the failure surfaces after 6 attempts with the generic
message, distinct from the raw error. -/
theorem submit_exhaustion_failure_witness :
    submitLead (some ()) (some "user-9") [("name", "Acme")]
        ⟨"default-app-id", fun _ => Outcome.err "NetworkError", fun _ => "2026-01-02T03:04:05.678Z"⟩ =
      ⟨⟨false, submitFailMsg⟩, 6, []⟩ ∧
    submitFailMsg ≠ "" ∧ submitFailMsg ≠ "NetworkError" := by
  have h := submit_exhaustion_failure "user-9" [("name", "Acme")]
    ⟨"default-app-id", fun _ => Outcome.err "NetworkError", fun _ => "2026-01-02T03:04:05.678Z"⟩
    (fun _ => "NetworkError") (by decide) (fun _ => rfl)
  exact ⟨h.1, h.2.1, h.2.2 0 (by decide)⟩

end Zorix
